import Mathlib

/-
Verification development for the command-line downloader in
src/yt-video-downloader.py.  The Python functions are shallowly embedded:
numeric values flowing through the progress formatter are modelled by the
exact rationals (the source performs only divisions by 1024, which are
exact on binary floating point for every input a byte counter can take,
and one-decimal rendering, modelled by round-half-to-even below), strings
by String, Python dictionaries with possibly missing keys by structures of
Option-typed fields, and fallible operations by Except.
-/

/-- Round half to even of a rational to an integer: the rounding Python
applies when rendering a value with a fixed number of decimal places. -/
def rhe (q : ℚ) : ℤ :=
  if q - ⌊q⌋ < 1/2 then ⌊q⌋
  else if 1/2 < q - ⌊q⌋ then ⌊q⌋ + 1
  else if ⌊q⌋ % 2 = 0 then ⌊q⌋ else ⌊q⌋ + 1

/-- Decimal rendering of a scaled magnitude: integer part, dot, one digit. -/
def fmt1core (m : ℕ) : String := toString (m / 10) ++ "." ++ toString (m % 10)

/-- Python fixed-point rendering with one decimal place, as in the
format specifiers 3.1f and .1f of sizeof_fmt (lines 29 and 31).  The
minimum width 3 of 3.1f never pads, because the shortest one-decimal
rendering 0.0 is already three characters wide, so both specifiers render
identically. -/
def fmt1 (q : ℚ) : String :=
  if q < 0 then "-" ++ fmt1core (rhe (q * 10)).natAbs
  else fmt1core (rhe (q * 10)).natAbs

/-- The unit list iterated by sizeof_fmt (line 27). -/
def units : List String := ["", "Ki", "Mi", "Gi", "Ti", "Pi", "Ei", "Zi"]

/-- The loop of sizeof_fmt (lines 27-31): while the magnitude is at least
1024 in absolute value, divide by 1024 and advance to the next unit; when
the unit list is exhausted, render with the terminal unit Yi. -/
def sizeof_fmt_go (suffix : String) : ℚ → List String → String
  | num, [] => fmt1 num ++ "Yi" ++ suffix
  | num, u :: rest =>
    if |num| < 1024 then fmt1 num ++ u ++ suffix
    else sizeof_fmt_go suffix (num / 1024) rest

/-- sizeof_fmt (lines 25-31): human friendly file size. -/
def sizeof_fmt (num : ℚ) (suffix : String := "B") : String :=
  sizeof_fmt_go suffix num units

/-- Number of divisions by 1024 the sizeof_fmt loop performs: the least
k below 8 such that the input is below 1024 ^ (k + 1) in absolute value,
and 8 once every unit of the list has been consumed. -/
def scaleCount (q : ℚ) : ℕ :=
  (((List.range 8).find? fun k => decide (|q| < 1024 ^ (k + 1))).getD 8)

/-- The unit rendered after k divisions: the k-th entry of the unit list,
and the terminal unit Yi once the list is exhausted. -/
def unit_of (k : ℕ) : String := units.getD k "Yi"

lemma rhe_natCast (n : ℕ) : rhe (n : ℚ) = (n : ℤ) := by
  have hfl : ⌊(n : ℚ)⌋ = (n : ℤ) := Int.floor_natCast n
  unfold rhe
  rw [hfl]
  have hr : (n : ℚ) - ((n : ℤ) : ℚ) = 0 := by push_cast; ring
  rw [hr]
  norm_num

lemma fmt1_decimal (q : ℚ) (a b : ℕ) (hb : b < 10)
    (hq : q * 10 = ((10 * a + b : ℕ) : ℚ)) :
    fmt1 q = toString a ++ "." ++ toString b := by
  have hq0 : ¬ q < 0 := by
    intro h
    have h10 : q * 10 < 0 := mul_neg_of_neg_of_pos h (by norm_num)
    rw [hq] at h10
    exact absurd h10 (not_lt.2 (Nat.cast_nonneg _))
  unfold fmt1
  rw [if_neg hq0, hq, rhe_natCast]
  have hab : ((10 * a + b : ℕ) : ℤ).natAbs = 10 * a + b := Int.natAbs_ofNat _
  rw [hab]
  unfold fmt1core
  have h1 : (10 * a + b) / 10 = a := by omega
  have h2 : (10 * a + b) % 10 = b := by omega
  rw [h1, h2]

lemma sizeof_fmt_go_stop (s : String) (q : ℚ) (u : String) (rest : List String)
    (h : |q| < 1024) :
    sizeof_fmt_go s q (u :: rest) = fmt1 q ++ u ++ s := by
  simp [sizeof_fmt_go, h]

lemma sizeof_fmt_go_step (s : String) (q : ℚ) (u : String) (rest : List String)
    (h : ¬ |q| < 1024) :
    sizeof_fmt_go s q (u :: rest) = sizeof_fmt_go s (q / 1024) rest := by
  simp [sizeof_fmt_go, h]

lemma find?_range_eq_some {p : ℕ → Bool} {n k : ℕ} (hk : k < n)
    (hlo : ∀ j, j < k → p j = false) (hpk : p k = true) :
    (List.range n).find? p = some k := by
  induction n with
  | zero => omega
  | succ n ih =>
    rw [List.range_succ, List.find?_append]
    rcases Nat.lt_or_ge k n with h | h
    · rw [ih h]
      rfl
    · have hk_eq : k = n := by omega
      subst hk_eq
      have hnone : (List.range k).find? p = none := by
        rw [List.find?_eq_none]
        intro x hx
        rw [List.mem_range] at hx
        simp [hlo x hx]
      rw [hnone]
      simp [hpk]

lemma find?_range_eq_none {p : ℕ → Bool} {n : ℕ}
    (hlo : ∀ j, j < n → p j = false) :
    (List.range n).find? p = none := by
  rw [List.find?_eq_none]
  intro x hx
  rw [List.mem_range] at hx
  simp [hlo x hx]

lemma scaleCount_of (q : ℚ) (k : ℕ) (hk : k < 8)
    (hlo : ∀ j, j < k → (1024 : ℚ) ^ (j + 1) ≤ |q|)
    (hhi : |q| < 1024 ^ (k + 1)) :
    scaleCount q = k := by
  unfold scaleCount
  rw [find?_range_eq_some hk
    (fun j hj => decide_eq_false (not_lt.2 (hlo j hj))) (decide_eq_true hhi)]
  rfl

lemma scaleCount_top (q : ℚ)
    (hlo : ∀ j, j < 8 → (1024 : ℚ) ^ (j + 1) ≤ |q|) :
    scaleCount q = 8 := by
  unfold scaleCount
  rw [find?_range_eq_none (fun j hj => decide_eq_false (not_lt.2 (hlo j hj)))]
  rfl

lemma pow1024_mono {j k : ℕ} (h : j ≤ k) : (1024 : ℚ) ^ j ≤ 1024 ^ k :=
  pow_le_pow_right₀ (by norm_num) h

lemma sizeof_fmt_go_chain (s : String) (L M : List String) (q : ℚ)
    (h : ∀ j, j < L.length → (1024 : ℚ) ^ (j + 1) ≤ |q|) :
    sizeof_fmt_go s q (L ++ M) = sizeof_fmt_go s (q / 1024 ^ L.length) M := by
  induction L generalizing q with
  | nil => simp
  | cons u L ih =>
    have h0 : ¬ |q| < 1024 := by
      rw [not_lt]
      calc (1024 : ℚ) = 1024 ^ (0 + 1) := by norm_num
      _ ≤ |q| := h 0 (by simp)
    rw [List.cons_append, sizeof_fmt_go_step s q u (L ++ M) h0]
    have hdiv : ∀ j, j < L.length → (1024 : ℚ) ^ (j + 1) ≤ |q / 1024| := by
      intro j hj
      rw [abs_div, abs_of_pos (by norm_num : (0 : ℚ) < 1024)]
      rw [le_div_iff₀ (by norm_num : (0 : ℚ) < 1024)]
      calc (1024 : ℚ) ^ (j + 1) * 1024 = 1024 ^ (j + 1 + 1) := (pow_succ 1024 (j + 1)).symm
      _ ≤ |q| := h (j + 1) (by simpa using Nat.succ_lt_succ hj)
    rw [ih (q / 1024) hdiv]
    rw [List.length_cons, div_div, pow_succ']

lemma sizeof_fmt_of_scale (q : ℚ) (k : ℕ) (hk : k < 8)
    (hlo : ∀ j, j < k → (1024 : ℚ) ^ (j + 1) ≤ |q|)
    (hhi : |q| < 1024 ^ (k + 1)) :
    sizeof_fmt q = fmt1 (q / 1024 ^ k) ++ unit_of k ++ "B" := by
  have hkl : k < units.length := by simp [units]; omega
  have hlen : (units.take k).length = k := by simp [units]; omega
  rw [sizeof_fmt]
  conv_lhs => rw [show units = units.take k ++ units.drop k from
    (List.take_append_drop k units).symm]
  rw [sizeof_fmt_go_chain "B" (units.take k) (units.drop k) q
    (by rw [hlen]; exact hlo)]
  rw [hlen]
  rw [List.drop_eq_getElem_cons hkl]
  rw [sizeof_fmt_go_stop _ _ _ _ (by
    rw [abs_div, abs_pow, abs_of_pos (by norm_num : (0 : ℚ) < 1024)]
    rw [div_lt_iff₀ (by positivity)]
    calc |q| < 1024 ^ (k + 1) := hhi
    _ = 1024 * 1024 ^ k := by rw [pow_succ]; ring)]
  congr 2
  rw [unit_of, List.getD_eq_getElem units "Yi" hkl]

lemma sizeof_fmt_top (q : ℚ)
    (hlo : ∀ j, j < 8 → (1024 : ℚ) ^ (j + 1) ≤ |q|) :
    sizeof_fmt q = fmt1 (q / 1024 ^ 8) ++ "Yi" ++ "B" := by
  rw [sizeof_fmt]
  conv_lhs => rw [show units = units ++ [] from (List.append_nil units).symm]
  rw [sizeof_fmt_go_chain "B" units [] q (by simpa [units] using hlo)]
  simp [sizeof_fmt_go, units]

lemma sizeof_fmt_scale_spec (q : ℚ) :
    sizeof_fmt q = fmt1 (q / 1024 ^ scaleCount q) ++ unit_of (scaleCount q) ++ "B" := by
  by_cases hex : ∃ j, |q| < 1024 ^ (j + 1)
  · have hpk : |q| < 1024 ^ (Nat.find hex + 1) := Nat.find_spec hex
    have hlo : ∀ j, j < Nat.find hex → (1024 : ℚ) ^ (j + 1) ≤ |q| :=
      fun j hj => not_lt.1 (Nat.find_min hex hj)
    rcases Nat.lt_or_ge (Nat.find hex) 8 with hk8 | hk8
    · rw [scaleCount_of q (Nat.find hex) hk8 hlo hpk]
      exact sizeof_fmt_of_scale q (Nat.find hex) hk8 hlo hpk
    · have hlo8 : ∀ j, j < 8 → (1024 : ℚ) ^ (j + 1) ≤ |q| :=
        fun j hj => hlo j (by omega)
      rw [scaleCount_top q hlo8]
      exact sizeof_fmt_top q hlo8
  · push_neg at hex
    have hlo8 : ∀ j, j < 8 → (1024 : ℚ) ^ (j + 1) ≤ |q| := fun j _ => hex j
    rw [scaleCount_top q hlo8]
    exact sizeof_fmt_top q hlo8

lemma sizeof_fmt_0 : sizeof_fmt 0 = "0.0B" := by
  rw [sizeof_fmt, show units = "" :: ["Ki", "Mi", "Gi", "Ti", "Pi", "Ei", "Zi"] from rfl]
  rw [sizeof_fmt_go_stop _ _ _ _ (by norm_num)]
  rw [fmt1_decimal 0 0 0 (by norm_num) (by norm_num)]
  rfl

lemma sizeof_fmt_500 : sizeof_fmt 500 = "500.0B" := by
  rw [sizeof_fmt, show units = "" :: ["Ki", "Mi", "Gi", "Ti", "Pi", "Ei", "Zi"] from rfl]
  rw [sizeof_fmt_go_stop _ _ _ _ (by rw [abs_of_nonneg] <;> norm_num)]
  rw [fmt1_decimal 500 500 0 (by norm_num) (by push_cast; norm_num)]
  rfl

lemma sizeof_fmt_1000 : sizeof_fmt 1000 = "1000.0B" := by
  rw [sizeof_fmt, show units = "" :: ["Ki", "Mi", "Gi", "Ti", "Pi", "Ei", "Zi"] from rfl]
  rw [sizeof_fmt_go_stop _ _ _ _ (by rw [abs_of_nonneg] <;> norm_num)]
  rw [fmt1_decimal 1000 1000 0 (by norm_num) (by push_cast; norm_num)]
  rfl

lemma sizeof_fmt_1023 : sizeof_fmt 1023 = "1023.0B" := by
  rw [sizeof_fmt, show units = "" :: ["Ki", "Mi", "Gi", "Ti", "Pi", "Ei", "Zi"] from rfl]
  rw [sizeof_fmt_go_stop _ _ _ _ (by rw [abs_of_nonneg] <;> norm_num)]
  rw [fmt1_decimal 1023 1023 0 (by norm_num) (by push_cast; norm_num)]
  rfl

lemma sizeof_fmt_1024 : sizeof_fmt 1024 = "1.0KiB" := by
  rw [sizeof_fmt, show units = "" :: ["Ki", "Mi", "Gi", "Ti", "Pi", "Ei", "Zi"] from rfl]
  rw [sizeof_fmt_go_step _ _ _ _ (by rw [abs_of_nonneg] <;> norm_num)]
  rw [show (1024 : ℚ) / 1024 = 1 from by norm_num]
  rw [sizeof_fmt_go_stop _ _ _ _ (by rw [abs_of_nonneg] <;> norm_num)]
  rw [fmt1_decimal 1 1 0 (by norm_num) (by push_cast; norm_num)]
  rfl

lemma sizeof_fmt_1536 : sizeof_fmt 1536 = "1.5KiB" := by
  rw [sizeof_fmt, show units = "" :: ["Ki", "Mi", "Gi", "Ti", "Pi", "Ei", "Zi"] from rfl]
  rw [sizeof_fmt_go_step _ _ _ _ (by rw [abs_of_nonneg] <;> norm_num)]
  rw [show (1536 : ℚ) / 1024 = 3/2 from by norm_num]
  rw [sizeof_fmt_go_stop _ _ _ _ (by rw [abs_of_nonneg] <;> norm_num)]
  rw [fmt1_decimal (3/2) 1 5 (by norm_num) (by push_cast; norm_num)]
  rfl

lemma sizeof_fmt_2048 : sizeof_fmt 2048 = "2.0KiB" := by
  rw [sizeof_fmt, show units = "" :: ["Ki", "Mi", "Gi", "Ti", "Pi", "Ei", "Zi"] from rfl]
  rw [sizeof_fmt_go_step _ _ _ _ (by rw [abs_of_nonneg] <;> norm_num)]
  rw [show (2048 : ℚ) / 1024 = 2 from by norm_num]
  rw [sizeof_fmt_go_stop _ _ _ _ (by rw [abs_of_nonneg] <;> norm_num)]
  rw [fmt1_decimal 2 2 0 (by norm_num) (by push_cast; norm_num)]
  rfl

lemma sizeof_fmt_pow8 : sizeof_fmt ((1024 : ℚ) ^ 8) = "1.0YiB" := by
  rw [sizeof_fmt_top ((1024 : ℚ) ^ 8) (by
    intro j hj
    rw [abs_of_nonneg (by positivity)]
    exact pow1024_mono (by omega))]
  rw [show (1024 : ℚ) ^ 8 / 1024 ^ 8 = 1 from
    div_self (ne_of_gt (by positivity : (0 : ℚ) < 1024 ^ 8))]
  rw [fmt1_decimal 1 1 0 (by norm_num) (by push_cast; norm_num)]
  rfl

/-
Progress reporter (progress_hook, lines 139-157).  A yt-dlp progress event
is a dictionary; every key the hook touches may be absent, which the
embedding records with Option-typed fields.  Byte counters are modelled by
rationals, as for sizeof_fmt.  The field names follow the dictionary keys
read by the source (the engine-supplied keys carry a leading underscore on
the three preformatted strings, dropped here).
-/

structure ProgressEvent where
  status : Option String := none
  percent_str : Option String := none
  speed_str : Option String := none
  eta_str : Option String := none
  total_bytes : Option ℚ := none
  total_bytes_estimated : Option ℚ := none
  downloaded_bytes : Option ℚ := none

/-- Python truthiness of an optional number: None and 0 are falsy. -/
def pyTruthy (x : Option ℚ) : Bool :=
  match x with
  | none => false
  | some v => decide (v ≠ 0)

/-- Python `a or b` on optional numbers: b whenever a is falsy. -/
def py_or (a b : Option ℚ) : Option ℚ :=
  if pyTruthy a then a else b

/-- Line 145: `total = d.get('total_bytes') or d.get('total_bytes_estimated')`. -/
def hook_total (d : ProgressEvent) : Option ℚ :=
  py_or d.total_bytes d.total_bytes_estimated

/-- Line 146: `downloaded = d.get('downloaded_bytes') or 0`. -/
def hook_downloaded (d : ProgressEvent) : ℚ :=
  (py_or d.downloaded_bytes (some 0)).getD 0

/-- Lines 148-151: the size field, `downloaded / total` when total is
truthy and the downloaded bytes alone otherwise. -/
def hook_size_str (d : ProgressEvent) : String :=
  if pyTruthy (hook_total d) then
    sizeof_fmt (hook_downloaded d) ++ " / " ++ sizeof_fmt ((hook_total d).getD 0)
  else
    sizeof_fmt (hook_downloaded d)

/-- Line 153: the in-place status line, a carriage return followed by
percent, size, rate and ETA fields separated by two spaces. -/
def hook_msg (d : ProgressEvent) : String :=
  "\r" ++ d.percent_str.getD "?%" ++ "  " ++ hook_size_str d ++ "  " ++
    d.speed_str.getD "? B/s" ++ "  ETA " ++ d.eta_str.getD "?s"

/-- progress_hook (lines 139-157).  The result is the text the call writes
to standard output, none when the status is unrecognized.  The only
fallible operation in the body is the bare subscript on line 140, which
raises KeyError when the dictionary carries no status key; every other
access uses .get with a default.  The downloading line is written with no
trailing newline (print with an empty end argument), the finished message
is a full print line. -/
def progress_hook (d : ProgressEvent) : Except String (Option String) :=
  match d.status with
  | none => Except.error "KeyError: status"
  | some s =>
    if s = "downloading" then Except.ok (some (hook_msg d))
    else if s = "finished" then
      Except.ok (some ("\nDownload complete, now post-processing..." ++ "\n"))
    else Except.ok none

/-
Format selection (lines 41-52 and 86-102).
-/

/-- The closed enumeration accepted by the format option -f (line 43). -/
def format_choices : List String := ["best", "bestvideo", "bestaudio", "720", "1080", "audio"]

/-- argparse validation of the format option value (lines 41-52): a value
outside the choices list aborts argument parsing with a usage error, so
main never builds an engine configuration for it. -/
def parse_format (s : String) : Except String String :=
  if s ∈ format_choices then Except.ok s
  else Except.error ("argument -f/--format: invalid choice: " ++ s)

/-- One entry of the postprocessors list (lines 94-98). -/
structure Postprocessor where
  key : String
  preferredcodec : String
  preferredquality : String
deriving DecidableEq

/-- The two ydl_opts entries the format chain writes: the format-selector
expression and the optional postprocessors list.  A none format models the
absence of the key in the dictionary (the engine would then fall back to
its own default selector). -/
structure FormatOpts where
  format : Option String
  postprocessors : Option (List Postprocessor)
deriving DecidableEq

/-- The if/elif chain of main (lines 86-102).  The chain has no else
branch: a value matching no arm leaves ydl_opts without a format key,
which the final arm of this embedding records as none. -/
def select_format (fmt : String) : FormatOpts :=
  if fmt = "best" then ⟨some "bestvideo+bestaudio/best", none⟩
  else if fmt = "bestvideo" then ⟨some "bestvideo", none⟩
  else if fmt = "bestaudio" then ⟨some "bestaudio/best", none⟩
  else if fmt = "audio" then
    ⟨some "bestaudio/best", some [⟨"FFmpegExtractAudio", "m4a", "192"⟩]⟩
  else if fmt = "720" then
    ⟨some "bestvideo[height<=720]+bestaudio/best[height<=720]", none⟩
  else if fmt = "1080" then
    ⟨some "bestvideo[height<=1080]+bestaudio/best[height<=1080]", none⟩
  else ⟨none, none⟩

/-- Configuration derivation end to end: argparse validates the quality
intent, then the chain of main maps it to the engine options. -/
def derive_config (s : String) : Except String FormatOpts :=
  (parse_format s).map select_format

/-
Error handling of main (lines 109-136): the run body is wrapped in a
try/except distinguishing DownloadError from every other exception.
-/

/-- Failure signal of a run: the engine's download-specific failure, or
any other exception with its type name and description. -/
inductive RunError
  | downloadError (msg : String)
  | unexpected (typeName : String) (msg : String)

/-- Lines 131-136: what the two except clauses print and the exit code
they pass to sys.exit.  A normal return prints no error line and the
process ends with code 0. -/
def run_main (body : Except RunError Unit) : Option String × ℕ :=
  match body with
  | Except.ok _ => (none, 0)
  | Except.error (RunError.downloadError m) =>
    (some ("\nDownload failed: " ++ m ++ "\n"), 1)
  | Except.error (RunError.unexpected t m) =>
    (some ("\nUnexpected error: " ++ t ++ ": " ++ m ++ "\n"), 1)

lemma pyTruthy_none : pyTruthy none = false := rfl

lemma pyTruthy_some_ne (v : ℚ) (h : v ≠ 0) : pyTruthy (some v) = true := by
  unfold pyTruthy
  exact decide_eq_true h

lemma pyTruthy_some_zero : pyTruthy (some 0) = false := by
  unfold pyTruthy
  exact decide_eq_false (by norm_num)

lemma py_or_of_truthy (a b : Option ℚ) (h : pyTruthy a = true) : py_or a b = a := by
  simp [py_or, h]

lemma py_or_of_falsy (a b : Option ℚ) (h : pyTruthy a = false) : py_or a b = b := by
  simp [py_or, h]

lemma progress_hook_some (d : ProgressEvent) (s : String) (h : d.status = some s) :
    progress_hook d =
      (if s = "downloading" then Except.ok (some (hook_msg d))
       else if s = "finished" then
         Except.ok (some ("\nDownload complete, now post-processing..." ++ "\n"))
       else Except.ok none) := by
  unfold progress_hook
  rw [h]

lemma progress_hook_none (d : ProgressEvent) (h : d.status = none) :
    progress_hook d = Except.error "KeyError: status" := by
  unfold progress_hook
  rw [h]

lemma progress_hook_congr (d1 d2 : ProgressEvent) (hst : d1.status = d2.status)
    (hmsg : hook_msg d1 = hook_msg d2) : progress_hook d1 = progress_hook d2 := by
  unfold progress_hook
  rw [hst, hmsg]

/-- The concrete DOWNLOADING event of the progress-line test property. -/
def evt_download_500 : ProgressEvent :=
  { status := some "downloading", percent_str := some "50.0%",
    speed_str := some "1.2MiB/s", eta_str := some "10s",
    total_bytes := some 1000, downloaded_bytes := some 500 }

lemma hook_downloaded_500 : hook_downloaded evt_download_500 = 500 := by
  unfold hook_downloaded
  rw [show evt_download_500.downloaded_bytes = some 500 from rfl]
  rw [py_or_of_truthy _ _ (pyTruthy_some_ne 500 (by norm_num))]
  rfl

lemma hook_total_500 : hook_total evt_download_500 = some 1000 := by
  unfold hook_total
  rw [show evt_download_500.total_bytes = some 1000 from rfl]
  exact py_or_of_truthy _ _ (pyTruthy_some_ne 1000 (by norm_num))

lemma hook_size_str_500 : hook_size_str evt_download_500 = "500.0B / 1000.0B" := by
  unfold hook_size_str
  rw [hook_total_500, hook_downloaded_500]
  rw [if_pos (pyTruthy_some_ne 1000 (by norm_num))]
  rw [show (some (1000 : ℚ)).getD 0 = 1000 from rfl]
  rw [sizeof_fmt_500, sizeof_fmt_1000]
  rfl

/-- C1: for every progress event dictionary carrying a status field — the
one field the engine contract always supplies — progress_hook returns
without raising: its body contains no fallible operation beyond the status
lookup, so the formatting of every event, in particular one whose
downloaded bytes exceed its total bytes (transient overshoot), completes
and the callback returns normally. -/
theorem C1_progress_hook_never_raises (d : ProgressEvent) (s : String)
    (h : d.status = some s) :
    ∃ out : Option String, progress_hook d = Except.ok out := by
  rw [progress_hook_some d s h]
  split_ifs <;> exact ⟨_, rfl⟩

/-- C1 witness: an overshoot event, 1500 bytes downloaded of a reported
total of 1000, is handled without raising. -/
theorem C1_witness :
    ∃ out : Option String,
      progress_hook { status := some "downloading", total_bytes := some 1000,
                      downloaded_bytes := some 1500 } = Except.ok out :=
  C1_progress_hook_never_raises _ "downloading" rfl

/-- C2: sizeof_fmt scales by the number of 1024-divisions recorded by
scaleCount, rendering with one decimal place and the unit of the list
reached, with Yi as the terminal unit for arbitrarily large inputs; the
five sample points of the specification evaluate as claimed. -/
theorem C2_sizeof_fmt_unit_scaling :
    (sizeof_fmt 0 = "0.0B" ∧ sizeof_fmt 1023 = "1023.0B" ∧
     sizeof_fmt 1024 = "1.0KiB" ∧ sizeof_fmt 1536 = "1.5KiB" ∧
     sizeof_fmt ((1024 : ℚ) ^ 8) = "1.0YiB") ∧
    (∀ q : ℚ, sizeof_fmt q =
      fmt1 (q / 1024 ^ scaleCount q) ++ unit_of (scaleCount q) ++ "B") ∧
    (∀ q : ℚ, (1024 : ℚ) ^ 8 ≤ |q| → unit_of (scaleCount q) = "Yi") := by
  refine ⟨⟨sizeof_fmt_0, sizeof_fmt_1023, sizeof_fmt_1024, sizeof_fmt_1536,
    sizeof_fmt_pow8⟩, sizeof_fmt_scale_spec, ?_⟩
  intro q h
  have hlo8 : ∀ j, j < 8 → (1024 : ℚ) ^ (j + 1) ≤ |q| := fun j hj =>
    le_trans (pow1024_mono (by omega)) h
  rw [scaleCount_top q hlo8]
  rfl

/-- C2 witness: an input of magnitude 1024 ^ 9 is beyond the unit list
and is rendered with the terminal unit Yi. -/
theorem C2_witness :
    (1024 : ℚ) ^ 8 ≤ |(1024 : ℚ) ^ 9| ∧
    unit_of (scaleCount ((1024 : ℚ) ^ 9)) = "Yi" := by
  have h : (1024 : ℚ) ^ 8 ≤ |(1024 : ℚ) ^ 9| := by
    rw [abs_of_nonneg (by positivity)]
    exact pow1024_mono (by omega)
  exact ⟨h, C2_sizeof_fmt_unit_scaling.2.2 ((1024 : ℚ) ^ 9) h⟩

/-- C3: every DOWNLOADING event is rendered as percent, two spaces, size,
two spaces, rate, two spaces, the literal ETA, a space and the eta text,
written in place after a carriage return with no trailing newline; on the
event with downloaded 500, total 1000, percent 50.0 percent, speed
1.2MiB/s and eta 10s the rendered line is exactly as claimed. -/
theorem C3_progress_line_composition :
    (∀ (d : ProgressEvent) (p sp et : String),
      d.status = some "downloading" → d.percent_str = some p →
      d.speed_str = some sp → d.eta_str = some et →
      progress_hook d = Except.ok (some
        ("\r" ++ p ++ "  " ++ hook_size_str d ++ "  " ++ sp ++ "  ETA " ++ et))) ∧
    progress_hook evt_download_500 = Except.ok (some
      ("\r" ++ "50.0%  500.0B / 1000.0B  1.2MiB/s  ETA 10s")) ∧
    ("50.0%  500.0B / 1000.0B  1.2MiB/s  ETA 10s").data.getLast? = some 's' := by
  refine ⟨?_, ?_, by decide⟩
  · intro d p sp et hst hp hsp het
    rw [progress_hook_some d "downloading" hst, if_pos rfl]
    unfold hook_msg
    rw [hp, hsp, het]
    rfl
  · rw [progress_hook_some evt_download_500 "downloading" rfl, if_pos rfl]
    unfold hook_msg
    rw [hook_size_str_500]
    rfl

/-- C3 witness: the composition law applied to the concrete event. -/
theorem C3_witness :
    progress_hook evt_download_500 = Except.ok (some
      ("\r" ++ "50.0%" ++ "  " ++ hook_size_str evt_download_500 ++ "  " ++
        "1.2MiB/s" ++ "  ETA " ++ "10s")) :=
  C3_progress_line_composition.1 evt_download_500 "50.0%" "1.2MiB/s" "10s"
    rfl rfl rfl rfl

/-- C4: the size field renders downloaded / total when a total is known,
whether exact or an estimate, and the downloaded bytes alone otherwise;
with no total and 2048 bytes downloaded it is exactly 2.0KiB. -/
theorem C4_size_field :
    (∀ (d : ProgressEvent) (t : ℚ), d.total_bytes = some t → t ≠ 0 →
      hook_size_str d = sizeof_fmt (hook_downloaded d) ++ " / " ++ sizeof_fmt t) ∧
    (∀ (d : ProgressEvent) (t : ℚ), pyTruthy d.total_bytes = false →
      d.total_bytes_estimated = some t → t ≠ 0 →
      hook_size_str d = sizeof_fmt (hook_downloaded d) ++ " / " ++ sizeof_fmt t) ∧
    (∀ d : ProgressEvent, pyTruthy d.total_bytes = false →
      pyTruthy d.total_bytes_estimated = false →
      hook_size_str d = sizeof_fmt (hook_downloaded d)) ∧
    hook_size_str { status := some "downloading", downloaded_bytes := some 2048 } =
      "2.0KiB" := by
  refine ⟨?_, ?_, ?_, ?_⟩
  · intro d t ht htne
    unfold hook_size_str hook_total
    rw [ht, py_or_of_truthy _ _ (pyTruthy_some_ne t htne)]
    rw [if_pos (pyTruthy_some_ne t htne)]
    rfl
  · intro d t hfalsy ht htne
    unfold hook_size_str hook_total
    rw [py_or_of_falsy _ _ hfalsy, ht]
    rw [if_pos (pyTruthy_some_ne t htne)]
    rfl
  · intro d hf1 hf2
    unfold hook_size_str hook_total
    rw [py_or_of_falsy _ _ hf1, if_neg (by rw [hf2]; exact Bool.false_ne_true)]
  · unfold hook_size_str hook_total hook_downloaded
    rw [show ({ status := some "downloading", downloaded_bytes := some 2048 } :
      ProgressEvent).total_bytes = none from rfl]
    rw [py_or_of_falsy _ _ pyTruthy_none]
    rw [show ({ status := some "downloading", downloaded_bytes := some 2048 } :
      ProgressEvent).total_bytes_estimated = none from rfl]
    rw [if_neg (by rw [pyTruthy_none]; exact Bool.false_ne_true)]
    rw [show ({ status := some "downloading", downloaded_bytes := some 2048 } :
      ProgressEvent).downloaded_bytes = some 2048 from rfl]
    rw [py_or_of_truthy _ _ (pyTruthy_some_ne 2048 (by norm_num))]
    rw [show (some (2048 : ℚ)).getD 0 = 2048 from rfl]
    exact sizeof_fmt_2048

/-- C4 witness: the known-total law applied to the concrete event. -/
theorem C4_witness :
    hook_size_str evt_download_500 =
      sizeof_fmt (hook_downloaded evt_download_500) ++ " / " ++ sizeof_fmt 1000 :=
  C4_size_field.1 evt_download_500 1000 rfl (by norm_num)

/-- C5: the audio and bestaudio intents map to the identical
format-selector expression, and differ only in audio carrying the
FFmpegExtractAudio postprocessing directive with codec m4a and quality
tier 192 while bestaudio carries none. -/
theorem C5_audio_selector_shared :
    (select_format "audio").format = (select_format "bestaudio").format ∧
    (select_format "bestaudio").postprocessors = none ∧
    (select_format "audio").postprocessors =
      some [⟨"FFmpegExtractAudio", "m4a", "192"⟩] :=
  ⟨rfl, rfl, rfl⟩

/-- C6: each height-capped intent maps to the selector picking the best
video stream of height at most the cap plus best audio, falling back to
the best combined stream of height at most the cap, with no
postprocessing. -/
theorem C6_height_capped_selectors :
    select_format "720" =
      ⟨some "bestvideo[height<=720]+bestaudio/best[height<=720]", none⟩ ∧
    select_format "1080" =
      ⟨some "bestvideo[height<=1080]+bestaudio/best[height<=1080]", none⟩ :=
  ⟨rfl, rfl⟩

/-- C7: a quality-intent value outside the supported enumeration is
rejected by argparse with a configuration error, so configuration
derivation fails fast and never reaches the selector chain or a default
engine configuration. -/
theorem C7_unknown_intent_fails_fast (s : String) (h : s ∉ format_choices) :
    derive_config s = Except.error ("argument -f/--format: invalid choice: " ++ s) := by
  unfold derive_config parse_format
  rw [if_neg h]
  rfl

/-- C7 witness: the unsupported value 4k is rejected. -/
theorem C7_witness :
    "4k" ∉ format_choices ∧
    derive_config "4k" =
      Except.error ("argument -f/--format: invalid choice: " ++ "4k") := by
  have h : "4k" ∉ format_choices := by decide
  exact ⟨h, C7_unknown_intent_fails_fast "4k" h⟩

/-- C8: an event whose status is neither downloading nor finished produces
no output and does not raise. -/
theorem C8_unrecognized_status_silent (d : ProgressEvent) (s : String)
    (h : d.status = some s) (h1 : s ≠ "downloading") (h2 : s ≠ "finished") :
    progress_hook d = Except.ok none := by
  rw [progress_hook_some d s h, if_neg h1, if_neg h2]

/-- C8 witness: a status of error is ignored silently. -/
theorem C8_witness : progress_hook { status := some "error" } = Except.ok none :=
  C8_unrecognized_status_silent _ "error" rfl (by decide) (by decide)

/-- C9: a download-specific failure is caught distinctly and printed with
the Download failed prefix, any other failure is printed with its kind
name and description, and either path exits with code 1. -/
theorem C9_error_handling :
    (∀ e : RunError, (run_main (Except.error e)).2 = 1) ∧
    (∀ m : String, (run_main (Except.error (RunError.downloadError m))).1 =
      some ("\nDownload failed: " ++ m ++ "\n")) ∧
    (∀ t m : String, (run_main (Except.error (RunError.unexpected t m))).1 =
      some ("\nUnexpected error: " ++ t ++ ": " ++ m ++ "\n")) := by
  refine ⟨?_, fun m => rfl, fun t m => rfl⟩
  intro e
  cases e <;> rfl

/-- C10: a total-bytes value present but equal to 0 makes the hook behave
exactly as if the total were absent, and an absent or zero
downloaded-bytes value renders as 0.0B. -/
theorem C10_zero_total_like_absent :
    (∀ d : ProgressEvent,
      progress_hook { d with total_bytes := some 0 } =
      progress_hook { d with total_bytes := none }) ∧
    (∀ d : ProgressEvent,
      d.downloaded_bytes = none ∨ d.downloaded_bytes = some 0 →
      sizeof_fmt (hook_downloaded d) = "0.0B") := by
  constructor
  · intro d
    have hsz : hook_size_str { d with total_bytes := some 0 } =
        hook_size_str { d with total_bytes := none } := by
      unfold hook_size_str hook_total
      rw [show ({ d with total_bytes := some 0 } : ProgressEvent).total_bytes =
        some 0 from rfl]
      rw [show ({ d with total_bytes := none } : ProgressEvent).total_bytes =
        none from rfl]
      rw [py_or_of_falsy _ _ pyTruthy_some_zero, py_or_of_falsy _ _ pyTruthy_none]
      rfl
    have hmsg : hook_msg { d with total_bytes := some 0 } =
        hook_msg { d with total_bytes := none } := by
      unfold hook_msg
      rw [hsz]
    exact progress_hook_congr _ _ rfl hmsg
  · intro d hd
    have hz : hook_downloaded d = 0 := by
      unfold hook_downloaded
      rcases hd with h | h <;> rw [h]
      · rw [py_or_of_falsy _ _ pyTruthy_none]
        rfl
      · rw [py_or_of_falsy _ _ pyTruthy_some_zero]
        rfl
    rw [hz, sizeof_fmt_0]

/-- C10 witness: an event with no downloaded-bytes key renders 0.0B. -/
theorem C10_witness :
    sizeof_fmt (hook_downloaded { status := some "downloading" }) = "0.0B" :=
  C10_zero_total_like_absent.2 _ (Or.inl rfl)
